import Mathlib

/-!
# Verification of the aws-viz graph-construction pipeline

A shallow embedding of the server-side graph construction code of the
aws-viz repository (`server/src/services/graph-builder.ts`, the
`AwsResourceScanner` aggregation loop, and the shared type definitions in
`shared/types.ts`), together with theorems settling the specification
claims about it.

Embedding conventions:
* TypeScript string-keyed enums become Lean inductives; the numeric enum
  `InfrastructureLayer` becomes named `Nat` constants (its runtime values).
* Optional fields (`x?: T`) become `Option` fields; JavaScript truthiness
  tests on strings/numbers are modelled explicitly (`none` and the empty
  string / zero are falsy).
* The free-form `metadata: Record<string, any>` bag is modelled as a
  structure holding exactly the keys the translated code reads, plus an
  uninterpreted association list `rest` for all other keys.
* `JsRecord`-style objects produced by the code (relationship metadata)
  are modelled as association lists of string pairs.
* Asynchrony: `Promise.allSettled` outcomes are inputs of the model (an
  `Except` per scan); `new Date().toISOString()` is an explicit `now`
  input.  All translated functions are otherwise pure, matching the
  mutation-free source.
* A reachable JavaScript `TypeError` (calling `.concat` on `undefined`)
  is modelled with `Except`.
-/

/-- `ResourceType` from `shared/types.ts` (string enum), constructors in
declaration order. -/
inductive ResourceType where
  | EC2_INSTANCE
  | LAMBDA_FUNCTION
  | EKS_CLUSTER
  | EKS_NODEGROUP
  | EKS_FARGATE_PROFILE
  | S3_BUCKET
  | EBS_VOLUME
  | RDS_INSTANCE
  | VPC
  | SUBNET
  | ROUTE_TABLE
  | INTERNET_GATEWAY
  | NAT_GATEWAY
  | SECURITY_GROUP
  | NETWORK_INTERFACE
  | ELASTIC_LOAD_BALANCER
  | IAM_ROLE
  deriving DecidableEq, Repr

/-- `Object.values(ResourceType)` in declaration order. -/
def allResourceTypes : List ResourceType :=
  [.EC2_INSTANCE, .LAMBDA_FUNCTION, .EKS_CLUSTER, .EKS_NODEGROUP,
   .EKS_FARGATE_PROFILE, .S3_BUCKET, .EBS_VOLUME, .RDS_INSTANCE, .VPC,
   .SUBNET, .ROUTE_TABLE, .INTERNET_GATEWAY, .NAT_GATEWAY, .SECURITY_GROUP,
   .NETWORK_INTERFACE, .ELASTIC_LOAD_BALANCER, .IAM_ROLE]

/-- `RelationshipType` from `shared/types.ts`. -/
inductive RelationshipType where
  | CONTAINS
  | ATTACHED_TO
  | ASSOCIATED_WITH
  | ROUTES_TO
  | USES
  | MEMBER_OF
  | MANAGES
  | RUNS_ON
  deriving DecidableEq, Repr

namespace InfrastructureLayer

/-- `InfrastructureLayer.GATEWAY = 1` (numeric enum value). -/
def GATEWAY : Nat := 1

/-- `InfrastructureLayer.LOAD_BALANCER = 2`. -/
def LOAD_BALANCER : Nat := 2

/-- `InfrastructureLayer.COMPUTE = 3`. -/
def COMPUTE : Nat := 3

/-- `InfrastructureLayer.DATA = 4`. -/
def DATA : Nat := 4

/-- `InfrastructureLayer.FOUNDATION = 5`. -/
def FOUNDATION : Nat := 5

/-- The numeric members of the `InfrastructureLayer` enum, as filtered out
of `Object.values(InfrastructureLayer)` by the `typeof layer === 'number'`
test in `calculateLayerCounts`. -/
def numericValues : List Nat := [1, 2, 3, 4, 5]

end InfrastructureLayer

/-- `SecurityGroupRule` from `shared/types.ts`.  Ports are integers
(`-1` occurs for ICMP). -/
structure SecurityGroupRule where
  protocol : String
  fromPort : Option Int
  toPort : Option Int
  cidrBlocks : Option (List String)
  sourceSecurityGroupId : Option String
  description : Option String
  direction : String
  deriving DecidableEq, Repr

/-- `NetworkAclRule` from `shared/types.ts`. -/
structure NetworkAclRule where
  ruleNumber : Int
  protocol : String
  ruleAction : String
  portRangeFrom : Option Int
  portRangeTo : Option Int
  hasPortRange : Bool
  cidrBlock : String
  direction : String
  deriving DecidableEq, Repr

/-- Inbound/outbound rule lists as stored by the scanner under
`metadata.detailedRules` for security-group resources. -/
structure SgDetailedRules where
  inbound : List SecurityGroupRule
  outbound : List SecurityGroupRule
  deriving DecidableEq, Repr

/-- The `metadata.detailedRules` key holds an `{inbound, outbound}` object
for security groups but a flat rule array for network ACLs (which the
scanner also stores under `ResourceType.SECURITY_GROUP`).  The two shapes
share one JavaScript key, hence this sum. -/
inductive DetailedRules where
  | sgRules (rules : SgDetailedRules)
  | naclRules (rules : List NetworkAclRule)
  deriving DecidableEq, Repr

/-- One element of `metadata.attachments` on an EBS-volume resource. -/
structure EbsAttachment where
  instanceId : Option String
  device : Option String
  state : Option String
  deriving DecidableEq, Repr

/-- The `metadata.attachment` object on a network-interface resource. -/
structure EniAttachment where
  instanceId : Option String
  status : Option String
  deriving DecidableEq, Repr

/-- The keys of the free-form `metadata: Record<string, any>` bag that the
graph-builder code reads, plus `rest` for every other key (uninterpreted
string payloads). -/
structure Metadata where
  securityGroupIds : Option (List String)
  attachments : Option (List EbsAttachment)
  attachment : Option EniAttachment
  availabilityZones : Option (List String)
  iamInstanceProfile : Option String
  role : Option String
  clusterName : Option String
  publicIpAddress : Option String
  detailedRules : Option DetailedRules
  isDefault : Option Bool
  associatedSubnets : Option (List String)
  description : Option String
  cidrBlock : Option String
  mapPublicIpOnLaunch : Option Bool
  rest : List (String × String)
  deriving DecidableEq, Repr

/-- `AwsResource` from `shared/types.ts`. -/
structure AwsResource where
  id : String
  name : String
  type : ResourceType
  region : String
  arn : Option String
  tags : Option (List (String × String))
  metadata : Metadata
  vpcId : Option String
  subnetId : Option String
  availabilityZone : Option String
  deriving DecidableEq, Repr

/-- JavaScript truthiness of an optional string: `undefined` and `''` are
falsy. -/
def truthyStr : Option String → Bool
  | none => false
  | some s => !s.isEmpty

/-- JavaScript truthiness of an optional integer: `undefined` and `0` are
falsy. -/
def truthyInt : Option Int → Bool
  | none => false
  | some n => n != 0

/-- Lookup in a tag / metadata association list (JS object indexing,
first binding wins as in object literal construction order). -/
def jsLookup (pairs : List (String × String)) (key : String) : Option String :=
  (pairs.find? (fun p => p.1 == key)).map (fun p => p.2)

/-- `ResourceRelationship` from `shared/types.ts`; the `metadata` objects
built by the relationship finders are small string-valued records. -/
structure ResourceRelationship where
  sourceId : String
  targetId : String
  type : RelationshipType
  metadata : List (String × String)
  deriving DecidableEq, Repr

/-- Node metadata is one of two shapes the builder produces: the spread
`{...resource.metadata, region, arn, tags, vpcId, subnetId,
availabilityZone}` built by `createNodes`, or the resource's metadata bag
passed through unchanged by `createNodeFromResource`. -/
inductive NodeMetadata where
  | spread (base : Metadata) (region : String) (arn : Option String)
      (tags : Option (List (String × String))) (vpcId : Option String)
      (subnetId : Option String) (availabilityZone : Option String)
  | bag (base : Metadata)
  deriving DecidableEq, Repr

/-- `GraphNode` from `shared/types.ts` (the optional d3 layout fields
`x/y/fx/fy` are never set server-side and are omitted). -/
structure GraphNode where
  id : String
  name : String
  type : ResourceType
  group : String
  layer : Nat
  metadata : NodeMetadata
  deriving DecidableEq, Repr

/-- `GraphLink` from `shared/types.ts`. -/
structure GraphLink where
  source : String
  target : String
  type : RelationshipType
  value : Nat
  metadata : List (String × String)
  deriving DecidableEq, Repr

/-- The `metadata` object of `GraphData`. -/
structure GraphMetadata where
  scanTimestamp : String
  region : String
  totalResources : Nat
  resourceCounts : List (ResourceType × Nat)
  layerCounts : List (Nat × Nat)
  deriving DecidableEq, Repr

/-- `GraphData` from `shared/types.ts`. -/
structure GraphData where
  nodes : List GraphNode
  links : List GraphLink
  metadata : GraphMetadata
  deriving DecidableEq, Repr

namespace GraphBuilder

/-- `GraphBuilder.determineGroup`. -/
def determineGroup (resource : AwsResource) : String :=
  if truthyStr resource.vpcId then resource.vpcId.getD "" else
  if resource.type = ResourceType.S3_BUCKET ∨
     resource.type = ResourceType.IAM_ROLE ∨
     resource.type = ResourceType.LAMBDA_FUNCTION then "global" else
  resource.region

/-- `GraphBuilder.determineLayer`: the fixed resource-type → layer
classification. -/
def determineLayer (resourceType : ResourceType) : Nat :=
  match resourceType with
  | .INTERNET_GATEWAY | .NAT_GATEWAY => InfrastructureLayer.GATEWAY
  | .ELASTIC_LOAD_BALANCER | .ROUTE_TABLE => InfrastructureLayer.LOAD_BALANCER
  | .EC2_INSTANCE | .LAMBDA_FUNCTION | .EKS_CLUSTER | .EKS_NODEGROUP
  | .EKS_FARGATE_PROFILE => InfrastructureLayer.COMPUTE
  | .RDS_INSTANCE | .S3_BUCKET | .EBS_VOLUME => InfrastructureLayer.DATA
  | .VPC | .SUBNET | .SECURITY_GROUP | .NETWORK_INTERFACE
  | .IAM_ROLE => InfrastructureLayer.FOUNDATION

/-- `GraphBuilder.createNodes`. -/
def createNodes (resources : List AwsResource) : List GraphNode :=
  resources.map (fun resource =>
    { id := resource.id
      name := resource.name
      type := resource.type
      group := determineGroup resource
      layer := determineLayer resource.type
      metadata := NodeMetadata.spread resource.metadata resource.region
        resource.arn resource.tags resource.vpcId resource.subnetId
        resource.availabilityZone })

/-- `GraphBuilder.findVpcContainments`: nested `forEach`+`push` rendered
as `flatMap`/`filter`; `r.vpcId === vpc.id` compares an optional string
against a string. -/
def findVpcContainments (resources : List AwsResource) : List ResourceRelationship :=
  (resources.filter (fun r => r.type = ResourceType.VPC)).flatMap (fun vpc =>
    (resources.filter (fun r => r.vpcId = some vpc.id ∧ r.id ≠ vpc.id)).map
      (fun resource =>
        { sourceId := vpc.id
          targetId := resource.id
          type := RelationshipType.CONTAINS
          metadata := [("vpcId", vpc.id)] }))

/-- `GraphBuilder.findSubnetContainments`. -/
def findSubnetContainments (resources : List AwsResource) : List ResourceRelationship :=
  (resources.filter (fun r => r.type = ResourceType.SUBNET)).flatMap (fun subnet =>
    (resources.filter (fun r => r.subnetId = some subnet.id ∧ r.id ≠ subnet.id)).map
      (fun resource =>
        { sourceId := subnet.id
          targetId := resource.id
          type := RelationshipType.CONTAINS
          metadata := [("subnetId", subnet.id)] }))

/-- `GraphBuilder.findSecurityGroupAssociations`:
`instance.metadata.securityGroupIds as string[] || []`. -/
def findSecurityGroupAssociations (resources : List AwsResource) : List ResourceRelationship :=
  (resources.filter (fun r => r.type = ResourceType.EC2_INSTANCE)).flatMap
    (fun inst =>
      (inst.metadata.securityGroupIds.getD []).map (fun sgId =>
        { sourceId := sgId
          targetId := inst.id
          type := RelationshipType.ASSOCIATED_WITH
          metadata := [("associationType", "security-group")] }))

/-- `GraphBuilder.findInstanceAttachments`: EBS attachments (guarded by
JS truthiness of `attachment.instanceId`) followed by ENI attachments
(optional chaining `attachment?.instanceId`). -/
def findInstanceAttachments (resources : List AwsResource) : List ResourceRelationship :=
  ((resources.filter (fun r => r.type = ResourceType.EBS_VOLUME)).flatMap
    (fun volume =>
      (volume.metadata.attachments.getD []).filterMap (fun att =>
        if truthyStr att.instanceId then
          some { sourceId := volume.id
                 targetId := att.instanceId.getD ""
                 type := RelationshipType.ATTACHED_TO
                 metadata := [("attachmentType", "ebs-volume")] }
        else none)))
  ++
  ((resources.filter (fun r => r.type = ResourceType.NETWORK_INTERFACE)).filterMap
    (fun eni =>
      match eni.metadata.attachment with
      | some att =>
        if truthyStr att.instanceId then
          some { sourceId := eni.id
                 targetId := att.instanceId.getD ""
                 type := RelationshipType.ATTACHED_TO
                 metadata := [("attachmentType", "network-interface")] }
        else none
      | none => none))

/-- `GraphBuilder.findLoadBalancerRelationships`: `lb.vpcId ===
subnet.vpcId` compares two optional strings (`undefined === undefined`
is true); missing `subnet.availabilityZone` defaults to `''`. -/
def findLoadBalancerRelationships (resources : List AwsResource) : List ResourceRelationship :=
  (resources.filter (fun r => r.type = ResourceType.ELASTIC_LOAD_BALANCER)).flatMap
    (fun lb =>
      (resources.filter (fun r => r.type = ResourceType.SUBNET)).filterMap
        (fun subnet =>
          if lb.vpcId = subnet.vpcId ∧
             (lb.metadata.availabilityZones.getD []).contains
               (subnet.availabilityZone.getD "") then
            some { sourceId := lb.id
                   targetId := subnet.id
                   type := RelationshipType.USES
                   metadata := [("usageType", "load-balancer-subnet")] }
          else none))

/-- The unanchored JavaScript regex search
`str.match(/arn:aws:iam::\d+:PART\/(.+)/)`: at some split point the string
reads `arn:aws:iam::`, one or more digits, `:PART/`, then at least one
character; the greedy `(.+)` capture is everything after the first such
match up to the end of the line (`.` does not match a newline). -/
def matchIamArnAt (part : List Char) (s : List Char) : Option (List Char) :=
  match s.dropPrefix? "arn:aws:iam::".toList with
  | none => none
  | some afterHead =>
    let digits := afterHead.takeWhile Char.isDigit
    let afterDigits := afterHead.dropWhile Char.isDigit
    if digits.isEmpty then none else
    match afterDigits.dropPrefix? (':' :: part ++ ['/']) with
    | none => none
    | some rest =>
      let captured := rest.takeWhile (fun c => c ≠ '\n')
      if captured.isEmpty then none else some captured

/-- First-match search of the regex of `matchIamArnAt` over all start
positions, left to right. -/
def matchIamArn (part : List Char) : List Char → Option (List Char)
  | [] => none
  | c :: cs =>
    match matchIamArnAt part (c :: cs) with
    | some captured => some captured
    | none => matchIamArn part cs

/-- `GraphBuilder.findIAMRoleAssociations`: EC2 instance-profile matches
followed by Lambda role matches; the role resource is looked up by name
with `Array.prototype.find` (first hit). -/
def findIAMRoleAssociations (resources : List AwsResource) : List ResourceRelationship :=
  let roles := resources.filter (fun r => r.type = ResourceType.IAM_ROLE)
  ((resources.filter (fun r => r.type = ResourceType.EC2_INSTANCE)).filterMap
    (fun inst =>
      if truthyStr inst.metadata.iamInstanceProfile then
        match matchIamArn "instance-profile".toList
            (inst.metadata.iamInstanceProfile.getD "").toList with
        | some roleNameChars =>
          match roles.find? (fun r => r.name == String.mk roleNameChars) with
          | some role =>
            some { sourceId := role.id
                   targetId := inst.id
                   type := RelationshipType.ASSOCIATED_WITH
                   metadata := [("associationType", "iam-role")] }
          | none => none
        | none => none
      else none))
  ++
  ((resources.filter (fun r => r.type = ResourceType.LAMBDA_FUNCTION)).filterMap
    (fun func =>
      if truthyStr func.metadata.role then
        match matchIamArn "role".toList (func.metadata.role.getD "").toList with
        | some roleNameChars =>
          match roles.find? (fun r => r.name == String.mk roleNameChars) with
          | some role =>
            some { sourceId := role.id
                   targetId := func.id
                   type := RelationshipType.ASSOCIATED_WITH
                   metadata := [("associationType", "iam-role")] }
          | none => none
        | none => none
      else none))

/-- `GraphBuilder.findGatewayRelationships`. -/
def findGatewayRelationships (resources : List AwsResource) : List ResourceRelationship :=
  ((resources.filter (fun r => r.type = ResourceType.INTERNET_GATEWAY)).filterMap
    (fun igw =>
      if truthyStr igw.vpcId then
        some { sourceId := igw.id
               targetId := igw.vpcId.getD ""
               type := RelationshipType.ATTACHED_TO
               metadata := [("attachmentType", "internet-gateway")] }
      else none))
  ++
  ((resources.filter (fun r => r.type = ResourceType.NAT_GATEWAY)).filterMap
    (fun nat =>
      if truthyStr nat.subnetId then
        some { sourceId := nat.id
               targetId := nat.subnetId.getD ""
               type := RelationshipType.USES
               metadata := [("usageType", "nat-gateway-subnet")] }
      else none))

/-- `GraphBuilder.findRouteTableAssociations`. -/
def findRouteTableAssociations (resources : List AwsResource) : List ResourceRelationship :=
  (resources.filter (fun r => r.type = ResourceType.ROUTE_TABLE)).filterMap
    (fun rt =>
      if truthyStr rt.vpcId then
        some { sourceId := rt.id
               targetId := rt.vpcId.getD ""
               type := RelationshipType.MEMBER_OF
               metadata := [("membershipType", "route-table")] }
      else none)

/-- The EKS instance-tag test of `findEKSRelationships`: JavaScript string
concatenation `'kubernetes.io/cluster/' + clusterName` prints `undefined`
for a missing cluster name. -/
def eksClusterTagKey (clusterName : Option String) : String :=
  "kubernetes.io/cluster/" ++ clusterName.getD "undefined"

/-- `GraphBuilder.findEKSRelationships`: cluster→nodegroup and
cluster→fargate `MANAGES` edges (cluster looked up by name), then
nodegroup→instance `RUNS_ON` edges keyed on the standard EKS tags. -/
def findEKSRelationships (resources : List AwsResource) : List ResourceRelationship :=
  let eksClusters := resources.filter (fun r => r.type = ResourceType.EKS_CLUSTER)
  let eksNodegroups := resources.filter (fun r => r.type = ResourceType.EKS_NODEGROUP)
  let eksFargateProfiles :=
    resources.filter (fun r => r.type = ResourceType.EKS_FARGATE_PROFILE)
  let ec2Instances := resources.filter (fun r => r.type = ResourceType.EC2_INSTANCE)
  (eksNodegroups.filterMap (fun nodegroup =>
    match eksClusters.find? (fun c => some c.name = nodegroup.metadata.clusterName) with
    | some cluster =>
      some { sourceId := cluster.id
             targetId := nodegroup.id
             type := RelationshipType.MANAGES
             metadata := [("relationshipType", "cluster-nodegroup")] }
    | none => none))
  ++
  (eksFargateProfiles.filterMap (fun fargateProfile =>
    match eksClusters.find? (fun c => some c.name = fargateProfile.metadata.clusterName) with
    | some cluster =>
      some { sourceId := cluster.id
             targetId := fargateProfile.id
             type := RelationshipType.MANAGES
             metadata := [("relationshipType", "cluster-fargate")] }
    | none => none))
  ++
  (eksNodegroups.flatMap (fun nodegroup =>
    ec2Instances.filterMap (fun inst =>
      let instanceTags := inst.tags.getD []
      if jsLookup instanceTags (eksClusterTagKey nodegroup.metadata.clusterName)
           = some "owned" ∧
         jsLookup instanceTags "eks:nodegroup-name" = some nodegroup.name then
        some { sourceId := nodegroup.id
               targetId := inst.id
               type := RelationshipType.RUNS_ON
               metadata := [("relationshipType", "nodegroup-instance")] }
      else none)))

/-- `GraphBuilder.discoverRelationships`: the nine rule passes
concatenated in source order. -/
def discoverRelationships (resources : List AwsResource) : List ResourceRelationship :=
  findVpcContainments resources
  ++ findSubnetContainments resources
  ++ findSecurityGroupAssociations resources
  ++ findInstanceAttachments resources
  ++ findLoadBalancerRelationships resources
  ++ findIAMRoleAssociations resources
  ++ findGatewayRelationships resources
  ++ findRouteTableAssociations resources
  ++ findEKSRelationships resources

/-- `GraphBuilder.getRelationshipStrength`. -/
def getRelationshipStrength (type : RelationshipType) : Nat :=
  match type with
  | .CONTAINS => 3
  | .MANAGES => 3
  | .ATTACHED_TO => 2
  | .ASSOCIATED_WITH => 2
  | .RUNS_ON => 2
  | .USES => 1
  | .MEMBER_OF => 1
  | .ROUTES_TO => 1

/-- `GraphBuilder.createLinks`. -/
def createLinks (resources : List AwsResource) : List GraphLink :=
  (discoverRelationships resources).map (fun rel =>
    { source := rel.sourceId
      target := rel.targetId
      type := rel.type
      value := getRelationshipStrength rel.type
      metadata := rel.metadata })

/-- `GraphBuilder.calculateResourceCounts`: a record with every
`ResourceType` key initialised to 0, then incremented per resource. -/
def calculateResourceCounts (resources : List AwsResource) : List (ResourceType × Nat) :=
  allResourceTypes.map (fun t => (t, resources.countP (fun r => r.type = t)))

/-- JavaScript `Set`/`Map` key collection order: first occurrence wins. -/
def insertionDedup (l : List String) : List String :=
  l.foldl (fun acc x => if acc.contains x then acc else acc ++ [x]) []

/-- First-occurrence deduplication for numeric record keys. -/
def insertionDedupNat (l : List Nat) : List Nat :=
  l.foldl (fun acc x => if acc.contains x then acc else acc ++ [x]) []

/-- `GraphBuilder.calculateLayerCounts`: keys 1–5 initialised to 0, then
each node's layer incremented; a layer outside 1–5 (impossible for nodes
built by `createNodes`) would add its own key. -/
def calculateLayerCounts (nodes : List GraphNode) : List (Nat × Nat) :=
  let base := InfrastructureLayer.numericValues
  let extra := insertionDedupNat
    ((nodes.map (fun n => n.layer)).filter (fun l => !base.contains l))
  (base ++ extra).map (fun l => (l, nodes.countP (fun n => n.layer = l)))

/-- `GraphBuilder.buildGraph`; `now` is the `new Date().toISOString()`
value read when the metadata object is built. -/
def buildGraph (resources : List AwsResource) (region : String) (now : String) : GraphData :=
  let nodes := createNodes resources
  let links := createLinks resources
  let resourceCounts := calculateResourceCounts resources
  let layerCounts := calculateLayerCounts nodes
  { nodes := nodes
    links := links
    metadata :=
      { scanTimestamp := now
        region := region
        totalResources := resources.length
        resourceCounts := resourceCounts
        layerCounts := layerCounts } }

end GraphBuilder

/-- The `securityInfo` object of `SecurityAwareLink`. -/
structure SecurityInfo where
  allowedPorts : List String
  protocols : List String
  direction : String
  securityGroupIds : List String
  deriving DecidableEq, Repr

/-- `SecurityAwareLink` from `shared/types.ts`. -/
structure SecurityAwareLink where
  source : String
  target : String
  type : RelationshipType
  value : Nat
  metadata : List (String × String)
  securityInfo : Option SecurityInfo
  deriving DecidableEq, Repr

/-- `SecurityGroupDetails` from `shared/types.ts` as built by
`extractSecurityGroupDetails` (its `vpcId` is always a string there, via
`sg.vpcId || ''`). -/
structure SecurityGroupDetails where
  groupId : String
  groupName : String
  description : String
  vpcId : String
  inboundRules : List SecurityGroupRule
  outboundRules : List SecurityGroupRule
  deriving DecidableEq, Repr

/-- `NetworkAclDetails` as built by `extractNetworkAclDetails`; its
`rules` field is `metadata.detailedRules || []`, which at runtime may be
either shape of `DetailedRules`. -/
structure NetworkAclDetails where
  networkAclId : String
  vpcId : String
  isDefault : Bool
  subnetIds : List String
  rules : DetailedRules
  deriving DecidableEq, Repr

/-- Pixel bounds of a zone group. -/
structure ZoneBounds where
  x : Nat
  y : Nat
  width : Nat
  height : Nat
  deriving DecidableEq, Repr

/-- `ZoneGroup` from `shared/types.ts` (recursive through `children`). -/
inductive ZoneGroup where
  | mk (id : String) (name : String) (type : String)
      (cidrBlock : Option String) (bounds : ZoneBounds) (color : String)
      (resources : List String) (children : Option (List ZoneGroup))

/-- Projection: group id. -/
def ZoneGroup.id : ZoneGroup → String
  | .mk i _ _ _ _ _ _ _ => i

/-- Projection: group bounds. -/
def ZoneGroup.bounds : ZoneGroup → ZoneBounds
  | .mk _ _ _ _ b _ _ _ => b

/-- Replace the children list of a zone group. -/
def ZoneGroup.setChildren : ZoneGroup → List ZoneGroup → ZoneGroup
  | .mk i n t c b col res _, cs => .mk i n t c b col res (some cs)

/-- Projection: children (absent for subnet groups). -/
def ZoneGroup.children : ZoneGroup → Option (List ZoneGroup)
  | .mk _ _ _ _ _ _ _ cs => cs

/-- The `securitySummary` object built by `buildSecurityAwareGraph`. -/
structure SecuritySummary where
  totalSecurityGroups : Nat
  totalNacls : Nat
  exposedPorts : List String
  publicResources : Nat
  deriving DecidableEq, Repr

/-- `ViewMode` from `shared/types.ts`. -/
inductive ViewMode where
  | BUSINESS_FLOW
  | INFRASTRUCTURE_DETAIL
  deriving DecidableEq, Repr

/-- `SecurityAwareGraphData` from `shared/types.ts`. -/
structure SecurityAwareGraphData where
  viewMode : ViewMode
  nodes : List GraphNode
  links : List SecurityAwareLink
  securityGroups : List SecurityGroupDetails
  networkAcls : List NetworkAclDetails
  zoneGroups : List ZoneGroup
  metadata : GraphMetadata
  securitySummary : SecuritySummary

namespace GraphBuilder

/-- JavaScript `Set` accumulation with `Array.from` read-out: insertion
order, duplicates dropped. -/
def addToSet (set : List String) (x : String) : List String :=
  if set.contains x then set else set ++ [x]

/-- `GraphBuilder.extractPortsFromRules`: ports collected into a `Set`;
`rule.fromPort && rule.toPort` is a JS truthiness test (0 is falsy). -/
def extractPortsFromRules (rules : List SecurityGroupRule) : List String :=
  rules.foldl (fun ports rule =>
    if truthyInt rule.fromPort ∧ truthyInt rule.toPort then
      if rule.fromPort = rule.toPort then
        addToSet ports (toString (rule.fromPort.getD 0))
      else
        addToSet ports
          (toString (rule.fromPort.getD 0) ++ "-" ++ toString (rule.toPort.getD 0))
    else ports) []

/-- `GraphBuilder.extractProtocolsFromRules`. -/
def extractProtocolsFromRules (rules : List SecurityGroupRule) : List String :=
  rules.foldl (fun protocols rule => addToSet protocols rule.protocol) []

/-- The security-group lookup map of `createSecurityAwareLinks`:
`Map.set` per security-group-typed resource, later entries overwriting
earlier ones, with `detailedRules || {inbound: [], outbound: []}` as the
stored value. -/
def securityGroupMapGet (resources : List AwsResource) (key : String) : Option DetailedRules :=
  ((resources.filter (fun r => r.type = ResourceType.SECURITY_GROUP)).reverse.find?
      (fun r => r.id = key)).map
    (fun sg => sg.metadata.detailedRules.getD (.sgRules ⟨[], []⟩))

/-- The body of the `relationships.map` callback of
`createSecurityAwareLinks`: the link is created with `value: 1`; for
`security-group` associations whose stored rules are a security-group
rule object, a `securityInfo` is attached.  When the stored rules are a
network-ACL rule array (possible because the scanner types NACLs as
security groups), `sgRules.inbound` is `undefined` and
`undefined.concat` raises a `TypeError`, modelled as `Except.error`. -/
def mkSecurityAwareLink (resources : List AwsResource) (rel : ResourceRelationship) :
    Except String SecurityAwareLink :=
  let link : SecurityAwareLink :=
    { source := rel.sourceId
      target := rel.targetId
      type := rel.type
      value := 1
      metadata := rel.metadata
      securityInfo := none }
  if rel.type = RelationshipType.ASSOCIATED_WITH ∧
     jsLookup rel.metadata "associationType" = some "security-group" then
    match securityGroupMapGet resources rel.sourceId with
    | some (.sgRules sgRules) =>
      let info : SecurityInfo :=
        { allowedPorts := extractPortsFromRules (sgRules.inbound ++ sgRules.outbound)
          protocols := extractProtocolsFromRules (sgRules.inbound ++ sgRules.outbound)
          direction := "bidirectional"
          securityGroupIds := [rel.sourceId] }
      .ok { link with securityInfo := some info }
    | some (.naclRules _) =>
      .error "TypeError: sgRules.inbound is undefined"
    | none => .ok link
  else .ok link

/-- `GraphBuilder.createSecurityAwareLinks`. -/
def createSecurityAwareLinks (resources : List AwsResource) :
    Except String (List SecurityAwareLink) :=
  (discoverRelationships resources).mapM (mkSecurityAwareLink resources)

/-- `GraphBuilder.calculateBounds`. -/
def calculateBounds (index : Nat) (isVpc : Bool) (parentBounds : Option ZoneBounds) : ZoneBounds :=
  if isVpc then
    { x := index * 450, y := 50, width := 400, height := 300 }
  else
    { x := ((parentBounds.map (fun b => b.x)).getD 0) + 20
      y := ((parentBounds.map (fun b => b.y)).getD 0) + 40 + index * 80
      width := 200
      height := 150 / 2 }

/-- `GraphBuilder.getVpcColor`. -/
def getVpcColor (index : Nat) : String :=
  let colors := ["#E3F2FD", "#F3E5F5", "#E8F5E8", "#FFF3E0", "#FCE4EC"]
  colors.getD (index % colors.length) ""

/-- `GraphBuilder.getSubnetColor` applied to the truthiness of
`subnet.metadata.mapPublicIpOnLaunch`. -/
def getSubnetColor (isPublic : Bool) : String :=
  if isPublic then "#FFE0B2" else "#E1F5FE"

/-- The grouping `Map` of `createZoneGroups`: keys in first-occurrence
order (only truthy `vpcId`/`subnetId` values are inserted), each mapped
to the resources carrying it in list order. -/
def groupByKey (resources : List AwsResource) (key : AwsResource → Option String) :
    List (String × List AwsResource) :=
  (insertionDedup ((resources.map key).filterMap (fun k =>
      if truthyStr k then some (k.getD "") else none))).map
    (fun k => (k, resources.filter (fun r => key r = some k)))

/-- `GraphBuilder.createZoneGroups`: VPC groups first (indexed for
bounds/colors), then subnet groups appended to the children of the first
zone group whose id equals the subnet's `vpcId`. -/
def createZoneGroups (resources : List AwsResource) : List ZoneGroup :=
  let vpcGroups := groupByKey resources (fun r => r.vpcId)
  let subnetGroups := groupByKey resources (fun r => r.subnetId)
  let vpcZoneGroups := vpcGroups.enum.map (fun p =>
    let groupIndex := p.1
    let vpcId := p.2.1
    let vpcResources := p.2.2
    let vpc := vpcResources.find? (fun r => r.type = ResourceType.VPC)
    ZoneGroup.mk vpcId
      (match vpc with
       | some v => if v.name.isEmpty then vpcId else v.name
       | none => vpcId)
      "vpc"
      ((vpc.map (fun v => v.metadata.cidrBlock)).getD none)
      (calculateBounds groupIndex true none)
      (getVpcColor groupIndex)
      (vpcResources.map (fun r => r.id))
      (some []))
  subnetGroups.foldl (fun zoneGroups p =>
    let subnetId := p.1
    let subnetResources := p.2
    match subnetResources.find? (fun r => r.type = ResourceType.SUBNET) with
    | none => zoneGroups
    | some subnet =>
      match zoneGroups.find? (fun zg => some zg.id = subnet.vpcId) with
      | none => zoneGroups
      | some parent =>
        let subnetGroup := ZoneGroup.mk subnetId
          (if subnet.name.isEmpty then subnetId else subnet.name)
          "subnet"
          subnet.metadata.cidrBlock
          (calculateBounds 0 false (some parent.bounds))
          (getSubnetColor (subnet.metadata.mapPublicIpOnLaunch.getD false))
          (subnetResources.map (fun r => r.id))
          none
        zoneGroups.map (fun zg =>
          if zg.id = parent.id then
            zg.setChildren ((zg.children.getD []) ++ [subnetGroup])
          else zg)) vpcZoneGroups

/-- `GraphBuilder.extractSecurityGroupDetails`:
`metadata.detailedRules?.inbound || []` is `[]` both when `detailedRules`
is missing and when it is the NACL rule-array shape. -/
def extractSecurityGroupDetails (resources : List AwsResource) : List SecurityGroupDetails :=
  (resources.filter (fun r => r.type = ResourceType.SECURITY_GROUP)).map (fun sg =>
    { groupId := sg.id
      groupName := sg.name
      description := sg.metadata.description.getD ""
      vpcId := sg.vpcId.getD ""
      inboundRules :=
        match sg.metadata.detailedRules with
        | some (.sgRules rules) => rules.inbound
        | _ => []
      outboundRules :=
        match sg.metadata.detailedRules with
        | some (.sgRules rules) => rules.outbound
        | _ => [] })

/-- `GraphBuilder.extractNetworkAclDetails`: filtered on
`metadata.isDefault !== undefined` (which also matches VPC resources);
`metadata.detailedRules || []` keeps whichever shape is present. -/
def extractNetworkAclDetails (resources : List AwsResource) : List NetworkAclDetails :=
  (resources.filter (fun r => r.metadata.isDefault ≠ none)).map (fun nacl =>
    { networkAclId := nacl.id
      vpcId := nacl.vpcId.getD ""
      isDefault := nacl.metadata.isDefault.getD false
      subnetIds := nacl.metadata.associatedSubnets.getD []
      rules := nacl.metadata.detailedRules.getD (.naclRules []) })

/-- `GraphBuilder.calculateExposedPorts`. -/
def calculateExposedPorts (securityGroups : List SecurityGroupDetails) : List String :=
  securityGroups.foldl (fun exposedPorts sg =>
    sg.inboundRules.foldl (fun exposedPorts rule =>
      if (rule.cidrBlocks.getD []).contains "0.0.0.0/0" then
        if truthyInt rule.fromPort ∧ truthyInt rule.toPort then
          if rule.fromPort = rule.toPort then
            addToSet exposedPorts (rule.protocol ++ "/" ++ toString (rule.fromPort.getD 0))
          else
            addToSet exposedPorts (rule.protocol ++ "/" ++ toString (rule.fromPort.getD 0)
              ++ "-" ++ toString (rule.toPort.getD 0))
        else addToSet exposedPorts rule.protocol
      else exposedPorts) exposedPorts) []

/-- `GraphBuilder.countPublicResources`. -/
def countPublicResources (resources : List AwsResource) : Nat :=
  (resources.filter (fun r =>
    r.type = ResourceType.ELASTIC_LOAD_BALANCER ∨
    r.type = ResourceType.INTERNET_GATEWAY ∨
    (r.type = ResourceType.EC2_INSTANCE ∧ truthyStr r.metadata.publicIpAddress) ∨
    r.type = ResourceType.S3_BUCKET)).length

/-- `GraphBuilder.buildSecurityAwareGraph`; fails exactly when
`createSecurityAwareLinks` raises. -/
def buildSecurityAwareGraph (resources : List AwsResource) (region : String)
    (now : String) : Except String SecurityAwareGraphData :=
  let nodes := createNodes resources
  match createSecurityAwareLinks resources with
  | .error e => .error e
  | .ok links =>
    let resourceCounts := calculateResourceCounts resources
    let layerCounts := calculateLayerCounts nodes
    let zoneGroups := createZoneGroups resources
    let securityGroups := extractSecurityGroupDetails resources
    let networkAcls := extractNetworkAclDetails resources
    .ok
      { viewMode := ViewMode.INFRASTRUCTURE_DETAIL
        nodes := nodes
        links := links
        securityGroups := securityGroups
        networkAcls := networkAcls
        zoneGroups := zoneGroups
        metadata :=
          { scanTimestamp := now
            region := region
            totalResources := resources.length
            resourceCounts := resourceCounts
            layerCounts := layerCounts }
        securitySummary :=
          { totalSecurityGroups := securityGroups.length
            totalNacls := networkAcls.length
            exposedPorts := calculateExposedPorts securityGroups
            publicResources := countPublicResources resources } }

end GraphBuilder

/-- The `flowLayer` string union of `BusinessFlowNode`
(`'entry' | 'security' | 'compute' | 'data' | 'external'`). -/
inductive FlowLayer where
  | entry
  | security
  | compute
  | data
  | external
  deriving DecidableEq, Repr

/-- `BusinessFlowNode` from `shared/types.ts` (a `GraphNode` plus flow
fields). -/
structure BusinessFlowNode where
  id : String
  name : String
  type : ResourceType
  group : String
  layer : Nat
  metadata : NodeMetadata
  flowLayer : FlowLayer
  isBusinessCritical : Bool
  publicAccess : Bool
  deriving DecidableEq, Repr

/-- `BusinessFlowLink` from `shared/types.ts`. -/
structure BusinessFlowLink where
  source : String
  target : String
  type : RelationshipType
  value : Nat
  flowType : String
  isMainPath : Bool
  protocols : Option (List String)
  ports : Option (List String)
  metadata : List (String × String)
  deriving DecidableEq, Repr

namespace GraphBuilder

/-- `GraphBuilder.isBusinessCritical`: membership of the resource's type
in the fixed `businessCriticalTypes` array. -/
def isBusinessCritical (resource : AwsResource) : Bool :=
  let businessCriticalTypes : List ResourceType :=
    [.INTERNET_GATEWAY, .ELASTIC_LOAD_BALANCER, .EC2_INSTANCE, .EKS_CLUSTER,
     .LAMBDA_FUNCTION, .RDS_INSTANCE, .S3_BUCKET, .NAT_GATEWAY, .VPC,
     .SUBNET, .SECURITY_GROUP]
  businessCriticalTypes.contains resource.type

/-- `GraphBuilder.determineFlowLayer`: a switch on `resource.type`. -/
def determineFlowLayer (resource : AwsResource) : FlowLayer :=
  match resource.type with
  | .INTERNET_GATEWAY => .entry
  | .ELASTIC_LOAD_BALANCER | .NAT_GATEWAY => .security
  | .EC2_INSTANCE | .EKS_CLUSTER | .LAMBDA_FUNCTION => .compute
  | .RDS_INSTANCE | .S3_BUCKET => .data
  | _ => .external

/-- `GraphBuilder.hasPublicAccess`. -/
def hasPublicAccess (resource : AwsResource) : Bool :=
  truthyStr resource.metadata.publicIpAddress ||
  resource.type = ResourceType.INTERNET_GATEWAY ||
  resource.type = ResourceType.ELASTIC_LOAD_BALANCER ||
  resource.type = ResourceType.S3_BUCKET

/-- `GraphBuilder.getInfrastructureLayer` (the second copy of the layer
classification used by `createNodeFromResource`). -/
def getInfrastructureLayer (resourceType : ResourceType) : Nat :=
  match resourceType with
  | .INTERNET_GATEWAY | .NAT_GATEWAY => InfrastructureLayer.GATEWAY
  | .ELASTIC_LOAD_BALANCER | .ROUTE_TABLE => InfrastructureLayer.LOAD_BALANCER
  | .EC2_INSTANCE | .EKS_CLUSTER | .EKS_NODEGROUP | .EKS_FARGATE_PROFILE
  | .LAMBDA_FUNCTION => InfrastructureLayer.COMPUTE
  | .RDS_INSTANCE | .S3_BUCKET | .EBS_VOLUME => InfrastructureLayer.DATA
  | .VPC | .SUBNET | .SECURITY_GROUP | .NETWORK_INTERFACE
  | .IAM_ROLE => InfrastructureLayer.FOUNDATION

/-- `GraphBuilder.createNodeFromResource`: `group` is
`resource.vpcId || 'global'` and the metadata bag is passed through. -/
def createNodeFromResource (resource : AwsResource) : GraphNode :=
  { id := resource.id
    name := resource.name
    type := resource.type
    group := if truthyStr resource.vpcId then resource.vpcId.getD "" else "global"
    layer := getInfrastructureLayer resource.type
    metadata := NodeMetadata.bag resource.metadata }

/-- The business node built for one business-critical resource inside
`createBusinessFlowNodes`. -/
def mkBusinessFlowNode (resource : AwsResource) : BusinessFlowNode :=
  let baseNode := createNodeFromResource resource
  { id := baseNode.id
    name := baseNode.name
    type := baseNode.type
    group := baseNode.group
    layer := baseNode.layer
    metadata := baseNode.metadata
    flowLayer := determineFlowLayer resource
    isBusinessCritical := true
    publicAccess := hasPublicAccess resource }

/-- `GraphBuilder.createBusinessFlowNodes`: `forEach` with a guarded
`push`, i.e. a `filterMap`. -/
def createBusinessFlowNodes (resources : List AwsResource) : List BusinessFlowNode :=
  resources.filterMap (fun resource =>
    if isBusinessCritical resource then some (mkBusinessFlowNode resource)
    else none)

/-- One `countP` comparison used by the termination argument of the
`traceFlowPath` loop: the number of links whose target is still
unvisited. -/
def unvisitedTargets (links : List BusinessFlowLink) (visited : List String) : Nat :=
  links.countP (fun l => !(visited.contains l.target))

/-- Pointwise implication between Boolean predicates bounds `countP`. -/
theorem countP_le_of_imp {α : Type} (l : List α) (p q : α → Bool)
    (himp : ∀ x, q x = true → p x = true) : l.countP q ≤ l.countP p := by
  induction l with
  | nil => simp
  | cons a t ih =>
    cases hq : q a with
    | false =>
      rw [List.countP_cons_of_neg _ _ (by simp [hq])]
      rw [List.countP_cons]
      omega
    | true =>
      rw [List.countP_cons_of_pos _ _ hq, List.countP_cons_of_pos _ _ (himp a hq)]
      omega

/-- If `q` implies `p` pointwise and some list element satisfies `p` but
not `q`, the `q`-count is strictly below the `p`-count. -/
theorem countP_lt_of_imp_of_gap {α : Type} (l : List α) (p q : α → Bool)
    (himp : ∀ x, q x = true → p x = true) (x : α) (hx : x ∈ l)
    (hpx : p x = true) (hqx : q x = false) : l.countP q < l.countP p := by
  induction l with
  | nil => cases hx
  | cons a t ih =>
    rcases List.mem_cons.mp hx with h | h
    · subst h
      rw [List.countP_cons_of_neg _ _ (by simp [hqx]),
        List.countP_cons_of_pos _ _ hpx]
      have hle : t.countP q ≤ t.countP p := countP_le_of_imp t p q himp
      omega
    · have := ih h
      cases hq : q a with
      | false =>
        rw [List.countP_cons_of_neg _ _ (by simp [hq]), List.countP_cons]
        omega
      | true =>
        rw [List.countP_cons_of_pos _ _ hq, List.countP_cons_of_pos _ _ (himp a hq)]
        omega

/-- The `while (true)` loop body of `traceFlowPath`, with the running
`path`, visited `Set` and `currentNode`; terminates because every
iteration marks a previously unvisited link target as visited. -/
def traceFlowPathAux (links : List BusinessFlowLink) (path : List String)
    (visited : List String) (currentNode : String) : List String :=
  match h : links.find? (fun l => l.source == currentNode && !(visited.contains l.target)) with
  | none => path
  | some nextLink =>
    traceFlowPathAux links (path ++ [nextLink.target])
      (nextLink.target :: visited) nextLink.target
termination_by unvisitedTargets links visited
decreasing_by
  have hmem : nextLink ∈ links := List.mem_of_find?_eq_some h
  have hpred := List.find?_some h
  simp only [Bool.and_eq_true, Bool.not_eq_true'] at hpred
  exact countP_lt_of_imp_of_gap links
    (fun l => !(visited.contains l.target))
    (fun l => !((nextLink.target :: visited).contains l.target))
    (by
      intro x hx
      simp only [Bool.not_eq_true', List.contains_cons] at hx ⊢
      exact (Bool.or_eq_false_iff.mp hx).2)
    nextLink hmem (by simpa using hpred.2) (by simp)

/-- `GraphBuilder.traceFlowPath`: path and visited set both start at the
start node (the `nodes` parameter is unused by the source loop but kept
for signature fidelity). -/
def traceFlowPath (startNodeId : String) (links : List BusinessFlowLink)
    (nodes : List BusinessFlowNode) : List String :=
  let _ := nodes
  traceFlowPathAux links [startNodeId] [startNodeId] startNodeId

end GraphBuilder

/-- The settlement of one of the 18 scan promises: `fulfilled` with a
resource list, or `rejected` with a reason. -/
def ScanOutcome : Type := Except String (List AwsResource)

/-- The 18 `Promise.allSettled` outcomes of
`AwsResourceScanner.scanAllResources`, in the order the promises are
created and collected. -/
structure ScanOutcomes where
  vpcs : ScanOutcome
  subnets : ScanOutcome
  instances : ScanOutcome
  volumes : ScanOutcome
  securityGroups : ScanOutcome
  routeTables : ScanOutcome
  internetGateways : ScanOutcome
  natGateways : ScanOutcome
  networkInterfaces : ScanOutcome
  networkAcls : ScanOutcome
  loadBalancers : ScanOutcome
  s3Buckets : ScanOutcome
  rdsInstances : ScanOutcome
  lambdaFunctions : ScanOutcome
  iamRoles : ScanOutcome
  eksClusters : ScanOutcome
  eksNodegroups : ScanOutcome
  eksFargateProfiles : ScanOutcome

namespace AwsResourceScanner

/-- The `results` array of `scanAllResources`, in source order. -/
def resultsInOrder (o : ScanOutcomes) : List ScanOutcome :=
  [o.vpcs, o.subnets, o.instances, o.volumes, o.securityGroups,
   o.routeTables, o.internetGateways, o.natGateways, o.networkInterfaces,
   o.networkAcls, o.loadBalancers, o.s3Buckets, o.rdsInstances,
   o.lambdaFunctions, o.iamRoles, o.eksClusters, o.eksNodegroups,
   o.eksFargateProfiles]

/-- The `results.forEach` loop: fulfilled results are pushed in order,
rejected ones only logged. -/
def collectSettled : List ScanOutcome → List AwsResource
  | [] => []
  | Except.ok value :: rest => value ++ collectSettled rest
  | Except.error _ :: rest => collectSettled rest

/-- `AwsResourceScanner.scanAllResources` given the settlements of its 18
scan promises.  `Promise.allSettled` itself never rejects and the
collection loop cannot throw, so the surrounding `try`/`catch` never
re-throws: the function always fulfills. -/
def scanAllResources (o : ScanOutcomes) : Except String (List AwsResource) :=
  .ok (collectSettled (resultsInOrder o))

/-- The list a settled promise contributes to the result: its value when
fulfilled, nothing when rejected. -/
def fulfilledValue : ScanOutcome → List AwsResource
  | Except.ok value => value
  | Except.error _ => []

end AwsResourceScanner

/-- Erase the two resource fields (`region`, `arn`) that relationship
discovery never reads; discovery is invariant under this erasure. -/
def stripLocation (r : AwsResource) : AwsResource :=
  { r with region := "", arn := none }

/-- The graph builder translated with an explicit resource store: the
source never assigns to any field of an input resource (node metadata is
a fresh spread object), so the translated computation returns the store
it was given. -/
def buildGraphSt (st : List AwsResource) (region now : String) :
    GraphData × List AwsResource :=
  (GraphBuilder.buildGraph st region now, st)

/-- State-passing translation of `buildSecurityAwareGraph`: like
`buildGraphSt`, the input resources are only read. -/
def buildSecurityAwareGraphSt (st : List AwsResource) (region now : String) :
    Except String SecurityAwareGraphData × List AwsResource :=
  (GraphBuilder.buildSecurityAwareGraph st region now, st)

/-- An empty metadata bag, for concrete test resources. -/
def emptyMetadata : Metadata :=
  { securityGroupIds := none
    attachments := none
    attachment := none
    availabilityZones := none
    iamInstanceProfile := none
    role := none
    clusterName := none
    publicIpAddress := none
    detailedRules := none
    isDefault := none
    associatedSubnets := none
    description := none
    cidrBlock := none
    mapPublicIpOnLaunch := none
    rest := [] }

/-- A concrete VPC resource used by witness statements. -/
def sampleVpc : AwsResource :=
  { id := "vpc-1"
    name := "vpc one"
    type := ResourceType.VPC
    region := "us-east-1"
    arn := none
    tags := none
    metadata := emptyMetadata
    vpcId := none
    subnetId := none
    availabilityZone := none }

/-- A concrete subnet inside `sampleVpc`, used by witness statements. -/
def sampleSubnet : AwsResource :=
  { id := "subnet-1"
    name := "subnet one"
    type := ResourceType.SUBNET
    region := "us-east-1"
    arn := none
    tags := none
    metadata := emptyMetadata
    vpcId := some "vpc-1"
    subnetId := none
    availabilityZone := some "us-east-1a" }

/-- The graph node `createNodes` builds for `sampleVpc`. -/
def sampleVpcNode : GraphNode :=
  { id := "vpc-1"
    name := "vpc one"
    type := ResourceType.VPC
    group := "us-east-1"
    layer := 5
    metadata := NodeMetadata.spread emptyMetadata "us-east-1" none none none none none }

/-- The VPC-containment relationship discovered between `sampleVpc` and
`sampleSubnet`. -/
def sampleContainment : ResourceRelationship :=
  { sourceId := "vpc-1"
    targetId := "subnet-1"
    type := RelationshipType.CONTAINS
    metadata := [("vpcId", "vpc-1")] }

/-- C1: every node built by `buildGraph` carries a layer that is a
function of the resource type alone via `determineLayer`, lies in 1–5,
and follows the fixed gateway/LB/compute/data/foundation classification
(with foundation as the default for the remaining types). -/
theorem buildGraph_layer_classification (resources : List AwsResource)
    (region now : String) (node : GraphNode)
    (hnode : node ∈ (GraphBuilder.buildGraph resources region now).nodes) :
    node.layer = GraphBuilder.determineLayer node.type ∧
    1 ≤ node.layer ∧ node.layer ≤ 5 ∧
    (node.layer = 1 ↔
      (node.type = ResourceType.INTERNET_GATEWAY ∨
       node.type = ResourceType.NAT_GATEWAY)) ∧
    (node.layer = 2 ↔
      (node.type = ResourceType.ELASTIC_LOAD_BALANCER ∨
       node.type = ResourceType.ROUTE_TABLE)) ∧
    (node.layer = 3 ↔
      (node.type = ResourceType.EC2_INSTANCE ∨
       node.type = ResourceType.LAMBDA_FUNCTION ∨
       node.type = ResourceType.EKS_CLUSTER ∨
       node.type = ResourceType.EKS_NODEGROUP ∨
       node.type = ResourceType.EKS_FARGATE_PROFILE)) ∧
    (node.layer = 4 ↔
      (node.type = ResourceType.RDS_INSTANCE ∨
       node.type = ResourceType.S3_BUCKET ∨
       node.type = ResourceType.EBS_VOLUME)) ∧
    (node.layer = 5 ↔
      (node.type = ResourceType.VPC ∨
       node.type = ResourceType.SUBNET ∨
       node.type = ResourceType.SECURITY_GROUP ∨
       node.type = ResourceType.NETWORK_INTERFACE ∨
       node.type = ResourceType.IAM_ROLE)) := by
  simp only [GraphBuilder.buildGraph, GraphBuilder.createNodes,
    List.mem_map] at hnode
  obtain ⟨r, _, rfl⟩ := hnode
  cases r.type <;> simp [GraphBuilder.determineLayer,
    InfrastructureLayer.GATEWAY, InfrastructureLayer.LOAD_BALANCER,
    InfrastructureLayer.COMPUTE, InfrastructureLayer.DATA,
    InfrastructureLayer.FOUNDATION]

/-- Witness for C1 at a concrete one-resource scan. -/
theorem buildGraph_layer_classification_witness :
    sampleVpcNode ∈ (GraphBuilder.buildGraph [sampleVpc] "us-east-1" "t0").nodes ∧
    sampleVpcNode.layer = GraphBuilder.determineLayer sampleVpcNode.type ∧
    sampleVpcNode.layer = 5 :=
  have hmem : sampleVpcNode ∈
      (GraphBuilder.buildGraph [sampleVpc] "us-east-1" "t0").nodes := by decide
  ⟨hmem,
   (buildGraph_layer_classification [sampleVpc] "us-east-1" "t0" sampleVpcNode hmem).1,
   ((buildGraph_layer_classification [sampleVpc] "us-east-1" "t0" sampleVpcNode
      hmem).2.2.2.2.2.2.2).mpr (Or.inl (by decide))⟩

/-- C5: `buildGraph` produces exactly one node per input resource,
preserving id, name and type in order, and reports the input length as
`totalResources`. -/
theorem buildGraph_preserves_resources (resources : List AwsResource)
    (region now : String) :
    (GraphBuilder.buildGraph resources region now).nodes.length = resources.length ∧
    (GraphBuilder.buildGraph resources region now).nodes.map
        (fun n => (n.id, n.name, n.type)) =
      resources.map (fun r => (r.id, r.name, r.type)) ∧
    (GraphBuilder.buildGraph resources region now).metadata.totalResources =
      resources.length := by
  refine ⟨?_, ?_, rfl⟩
  · simp [GraphBuilder.buildGraph, GraphBuilder.createNodes]
  · simp [GraphBuilder.buildGraph, GraphBuilder.createNodes, List.map_map,
      Function.comp]

/-- One step of the collection loop: a settled outcome contributes its
`fulfilledValue`. -/
theorem collectSettled_cons (x : ScanOutcome) (rest : List ScanOutcome) :
    AwsResourceScanner.collectSettled (x :: rest) =
      AwsResourceScanner.fulfilledValue x ++ AwsResourceScanner.collectSettled rest := by
  cases x <;> rfl

/-- C2: `scanAllResources` never rejects, and its result is exactly the
concatenation of the fulfilled per-service scan results in the fixed
source order, rejected scans contributing nothing. -/
theorem scanAllResources_log_and_skip (o : ScanOutcomes) :
    AwsResourceScanner.scanAllResources o =
      Except.ok
        (AwsResourceScanner.fulfilledValue o.vpcs ++
         AwsResourceScanner.fulfilledValue o.subnets ++
         AwsResourceScanner.fulfilledValue o.instances ++
         AwsResourceScanner.fulfilledValue o.volumes ++
         AwsResourceScanner.fulfilledValue o.securityGroups ++
         AwsResourceScanner.fulfilledValue o.routeTables ++
         AwsResourceScanner.fulfilledValue o.internetGateways ++
         AwsResourceScanner.fulfilledValue o.natGateways ++
         AwsResourceScanner.fulfilledValue o.networkInterfaces ++
         AwsResourceScanner.fulfilledValue o.networkAcls ++
         AwsResourceScanner.fulfilledValue o.loadBalancers ++
         AwsResourceScanner.fulfilledValue o.s3Buckets ++
         AwsResourceScanner.fulfilledValue o.rdsInstances ++
         AwsResourceScanner.fulfilledValue o.lambdaFunctions ++
         AwsResourceScanner.fulfilledValue o.iamRoles ++
         AwsResourceScanner.fulfilledValue o.eksClusters ++
         AwsResourceScanner.fulfilledValue o.eksNodegroups ++
         AwsResourceScanner.fulfilledValue o.eksFargateProfiles) ∧
    (∀ e : String, AwsResourceScanner.fulfilledValue (Except.error e) = []) := by
  constructor
  · simp only [AwsResourceScanner.scanAllResources,
      AwsResourceScanner.resultsInOrder, collectSettled_cons,
      AwsResourceScanner.collectSettled, List.append_nil, List.append_assoc]
  · intro e
    rfl

/-- C6: business-flow node creation filters on the fixed
business-critical type set, marks every included node business-critical,
and the flow layer depends only on the resource type. -/
theorem businessFlow_type_rules (resources : List AwsResource) :
    GraphBuilder.createBusinessFlowNodes resources =
      (resources.filter GraphBuilder.isBusinessCritical).map
        GraphBuilder.mkBusinessFlowNode ∧
    (∀ r : AwsResource, GraphBuilder.isBusinessCritical r = true ↔
      (r.type = ResourceType.INTERNET_GATEWAY ∨
       r.type = ResourceType.ELASTIC_LOAD_BALANCER ∨
       r.type = ResourceType.EC2_INSTANCE ∨
       r.type = ResourceType.EKS_CLUSTER ∨
       r.type = ResourceType.LAMBDA_FUNCTION ∨
       r.type = ResourceType.RDS_INSTANCE ∨
       r.type = ResourceType.S3_BUCKET ∨
       r.type = ResourceType.NAT_GATEWAY ∨
       r.type = ResourceType.VPC ∨
       r.type = ResourceType.SUBNET ∨
       r.type = ResourceType.SECURITY_GROUP)) ∧
    (∀ n ∈ GraphBuilder.createBusinessFlowNodes resources,
       n.isBusinessCritical = true ∧
       n.flowLayer = (GraphBuilder.mkBusinessFlowNode
         { id := "", name := "", type := n.type, region := "", arn := none,
           tags := none, metadata := emptyMetadata, vpcId := none,
           subnetId := none, availabilityZone := none }).flowLayer) ∧
    (∀ r₁ r₂ : AwsResource, r₁.type = r₂.type →
       GraphBuilder.determineFlowLayer r₁ = GraphBuilder.determineFlowLayer r₂) := by
  refine ⟨?_, ?_, ?_, ?_⟩
  · induction resources with
    | nil => rfl
    | cons r rest ih =>
      simp only [GraphBuilder.createBusinessFlowNodes, List.filterMap_cons,
        List.filter_cons] at ih ⊢
      cases h : GraphBuilder.isBusinessCritical r <;> simp [h, ih]
  · intro r
    cases h : r.type <;> simp [GraphBuilder.isBusinessCritical, h]
  · intro n hn
    simp only [GraphBuilder.createBusinessFlowNodes, List.mem_filterMap] at hn
    obtain ⟨r, _, hr⟩ := hn
    by_cases h : GraphBuilder.isBusinessCritical r
    · rw [if_pos h] at hr
      cases hr
      refine ⟨rfl, ?_⟩
      simp only [GraphBuilder.mkBusinessFlowNode, GraphBuilder.createNodeFromResource,
        GraphBuilder.determineFlowLayer]
    · rw [if_neg h] at hr
      cases hr
  · intro r₁ r₂ h
    simp only [GraphBuilder.determineFlowLayer, h]

/-- Witness for C6: a VPC is (per the code's debugging inclusion)
business-critical, and an EBS volume is not. -/
theorem businessFlow_type_rules_witness :
    GraphBuilder.isBusinessCritical sampleVpc = true ∧
    GraphBuilder.createBusinessFlowNodes [sampleVpc] =
      [GraphBuilder.mkBusinessFlowNode sampleVpc] :=
  ⟨((businessFlow_type_rules []).2.1 sampleVpc).mpr
      (by right; right; right; right; right; right; right; right; left; decide),
   by rw [(businessFlow_type_rules [sampleVpc]).1]; decide⟩

/-- If every `ok` output of `f` satisfies `P`, every element of an `ok`
result of `mapM f` over `Except` does. -/
theorem mapM_ok_forall {α β : Type} (f : α → Except String β) (P : β → Prop)
    (hf : ∀ a b, f a = Except.ok b → P b) :
    ∀ (l : List α) (out : List β), l.mapM f = Except.ok out → ∀ x ∈ out, P x := by
  intro l
  induction l with
  | nil =>
    intro out h x hx
    rw [List.mapM_nil] at h
    cases h
    cases hx
  | cons a rest ih =>
    intro out h x hx
    rw [List.mapM_cons] at h
    cases hfa : f a with
    | error e =>
      rw [hfa] at h
      exact Except.noConfusion h
    | ok b =>
      rw [hfa] at h
      cases hrest : rest.mapM f with
      | error e =>
        rw [hrest] at h
        exact Except.noConfusion h
      | ok bs =>
        rw [hrest] at h
        have hout : b :: bs = out := Except.ok.inj h
        subst hout
        rcases List.mem_cons.mp hx with hx | hx
        · subst hx
          exact hf a x hfa
        · exact ih bs hrest x hx

/-- Every `ok` branch of `mkSecurityAwareLink` yields a link of value 1. -/
theorem mkSecurityAwareLink_value_one (resources : List AwsResource)
    (rel : ResourceRelationship) (link : SecurityAwareLink)
    (h : GraphBuilder.mkSecurityAwareLink resources rel = Except.ok link) :
    link.value = 1 := by
  unfold GraphBuilder.mkSecurityAwareLink at h
  split at h
  · split at h
    · cases h
      rfl
    · cases h
    · cases h
      rfl
  · cases h
    rfl

/-- C10: links built by `buildGraph` have value
`getRelationshipStrength type` with the fixed 3/2/1 classification, while
every link of a successful `createSecurityAwareLinks` run has value 1. -/
theorem link_value_classification (resources : List AwsResource)
    (region now : String) :
    (GraphBuilder.buildGraph resources region now).links =
      GraphBuilder.createLinks resources ∧
    (∀ link ∈ GraphBuilder.createLinks resources,
       link.value = GraphBuilder.getRelationshipStrength link.type ∧
       1 ≤ link.value ∧ link.value ≤ 3 ∧
       (link.value = 3 ↔
         (link.type = RelationshipType.CONTAINS ∨
          link.type = RelationshipType.MANAGES)) ∧
       (link.value = 2 ↔
         (link.type = RelationshipType.ATTACHED_TO ∨
          link.type = RelationshipType.ASSOCIATED_WITH ∨
          link.type = RelationshipType.RUNS_ON)) ∧
       (link.value = 1 ↔
         (link.type = RelationshipType.USES ∨
          link.type = RelationshipType.MEMBER_OF ∨
          link.type = RelationshipType.ROUTES_TO))) ∧
    (∀ out, GraphBuilder.createSecurityAwareLinks resources = Except.ok out →
       ∀ link ∈ out, link.value = 1) := by
  refine ⟨rfl, ?_, ?_⟩
  · intro link hlink
    simp only [GraphBuilder.createLinks, List.mem_map] at hlink
    obtain ⟨rel, _, rfl⟩ := hlink
    cases rel.type <;> simp [GraphBuilder.getRelationshipStrength]
  · intro out hout
    exact mapM_ok_forall (GraphBuilder.mkSecurityAwareLink resources)
      (fun link => link.value = 1)
      (fun rel link h => mkSecurityAwareLink_value_one resources rel link h)
      (GraphBuilder.discoverRelationships resources) out hout

/-- Witness for C10 at a concrete two-resource scan containing one
containment link. -/
theorem link_value_classification_witness :
    (∃ link ∈ GraphBuilder.createLinks [sampleVpc, sampleSubnet],
       link.value = 3) ∧
    (∃ out, GraphBuilder.createSecurityAwareLinks [sampleVpc, sampleSubnet] =
       Except.ok out ∧ ∀ link ∈ out, link.value = 1) := by
  have hthm := link_value_classification [sampleVpc, sampleSubnet] "us-east-1" "t0"
  constructor
  · have hmem : GraphLink.mk "vpc-1" "subnet-1" RelationshipType.CONTAINS 3
        [("vpcId", "vpc-1")] ∈ GraphBuilder.createLinks [sampleVpc, sampleSubnet] := by
      decide
    exact ⟨_, hmem, (hthm.2.1 _ hmem).2.2.2.1.mpr (Or.inl rfl)⟩
  · have hok : GraphBuilder.createSecurityAwareLinks [sampleVpc, sampleSubnet] =
        Except.ok [SecurityAwareLink.mk "vpc-1" "subnet-1"
          RelationshipType.CONTAINS 1 [("vpcId", "vpc-1")] none] := by
      rfl
    exact ⟨_, hok, hthm.2.2 _ hok⟩

/-- C3: the VPC containment rule emits a `CONTAINS` relationship from
`v.id` to `r.id` exactly for pairs with `v` a VPC, `r.vpcId = v.id` and
`r.id ≠ v.id`; the subnet rule is the analogous statement on `subnetId`;
in particular neither rule ever emits a self-loop. -/
theorem containment_rules_characterization (resources : List AwsResource)
    (rel : ResourceRelationship) :
    (rel ∈ GraphBuilder.findVpcContainments resources ↔
      ∃ v ∈ resources, ∃ r ∈ resources,
        v.type = ResourceType.VPC ∧ r.vpcId = some v.id ∧ r.id ≠ v.id ∧
        rel = { sourceId := v.id, targetId := r.id,
                type := RelationshipType.CONTAINS,
                metadata := [("vpcId", v.id)] }) ∧
    (rel ∈ GraphBuilder.findSubnetContainments resources ↔
      ∃ s ∈ resources, ∃ r ∈ resources,
        s.type = ResourceType.SUBNET ∧ r.subnetId = some s.id ∧ r.id ≠ s.id ∧
        rel = { sourceId := s.id, targetId := r.id,
                type := RelationshipType.CONTAINS,
                metadata := [("subnetId", s.id)] }) ∧
    (rel ∈ GraphBuilder.findVpcContainments resources →
      rel.sourceId ≠ rel.targetId) ∧
    (rel ∈ GraphBuilder.findSubnetContainments resources →
      rel.sourceId ≠ rel.targetId) := by
  have hvpc : rel ∈ GraphBuilder.findVpcContainments resources ↔
      ∃ v ∈ resources, ∃ r ∈ resources,
        v.type = ResourceType.VPC ∧ r.vpcId = some v.id ∧ r.id ≠ v.id ∧
        rel = { sourceId := v.id, targetId := r.id,
                type := RelationshipType.CONTAINS,
                metadata := [("vpcId", v.id)] } := by
    simp only [GraphBuilder.findVpcContainments, List.mem_flatMap,
      List.mem_map, List.mem_filter, decide_eq_true_eq]
    constructor
    · rintro ⟨v, ⟨hv, hvty⟩, r, hrmem, rfl⟩
      exact ⟨v, hv, r, hrmem.1, hvty, hrmem.2.1, hrmem.2.2, rfl⟩
    · rintro ⟨v, hv, r, hr, hvty, hvpcid, hne, rfl⟩
      exact ⟨v, ⟨hv, hvty⟩, r, ⟨hr, hvpcid, hne⟩, rfl⟩
  have hsub : rel ∈ GraphBuilder.findSubnetContainments resources ↔
      ∃ s ∈ resources, ∃ r ∈ resources,
        s.type = ResourceType.SUBNET ∧ r.subnetId = some s.id ∧ r.id ≠ s.id ∧
        rel = { sourceId := s.id, targetId := r.id,
                type := RelationshipType.CONTAINS,
                metadata := [("subnetId", s.id)] } := by
    simp only [GraphBuilder.findSubnetContainments, List.mem_flatMap,
      List.mem_map, List.mem_filter, decide_eq_true_eq]
    constructor
    · rintro ⟨s, ⟨hs, hsty⟩, r, hrmem, rfl⟩
      exact ⟨s, hs, r, hrmem.1, hsty, hrmem.2.1, hrmem.2.2, rfl⟩
    · rintro ⟨s, hs, r, hr, hsty, hsubid, hne, rfl⟩
      exact ⟨s, ⟨hs, hsty⟩, r, ⟨hr, hsubid, hne⟩, rfl⟩
  refine ⟨hvpc, hsub, ?_, ?_⟩
  · intro hmem
    obtain ⟨v, _, r, _, _, _, hne, rfl⟩ := hvpc.mp hmem
    simpa using fun h => hne h.symm
  · intro hmem
    obtain ⟨s, _, r, _, _, _, hne, rfl⟩ := hsub.mp hmem
    simpa using fun h => hne h.symm

/-- Witness for C3: the concrete containment of `sampleSubnet` in
`sampleVpc`. -/
theorem containment_rules_characterization_witness :
    sampleContainment ∈ GraphBuilder.findVpcContainments [sampleVpc, sampleSubnet] ∧
    sampleContainment.sourceId ≠ sampleContainment.targetId :=
  have h := containment_rules_characterization [sampleVpc, sampleSubnet]
    sampleContainment
  have hmem : sampleContainment ∈
      GraphBuilder.findVpcContainments [sampleVpc, sampleSubnet] :=
    h.1.mpr ⟨sampleVpc, by decide, sampleSubnet, by decide, by decide, by decide,
      by decide, by decide⟩
  ⟨hmem, h.2.2.1 hmem⟩

/-- Sums of pointwise sums of mapped values split. -/
theorem sum_map_add {κ : Type} (l : List κ) (f g : κ → Nat) :
    (l.map (fun x => f x + g x)).sum = (l.map f).sum + (l.map g).sum := by
  induction l with
  | nil => rfl
  | cons a rest ih =>
    simp only [List.map_cons, List.sum_cons, ih]
    omega

/-- Looking a key up in the record `{k ↦ c k}` built over a key list. -/
theorem lookup_map_self {κ : Type} [DecidableEq κ] (l : List κ) (c : κ → Nat)
    (t : κ) (ht : t ∈ l) :
    List.lookup t (l.map (fun x => (x, c x))) = some (c t) := by
  induction l with
  | nil => cases ht
  | cons a rest ih =>
    by_cases h : t = a
    · subst h
      simp [List.lookup]
    · rcases List.mem_cons.mp ht with h' | h'
      · exact absurd h' h
      · have hbeq : (t == a) = false := by simp [h]
        simp only [List.map_cons, List.lookup, hbeq]
        exact ih h'

/-- Each resource type indicator sums to 1 over the full enum. -/
theorem sum_indicator_resourceType (ty : ResourceType) :
    (allResourceTypes.map (fun t => if ty = t then 1 else 0)).sum = 1 := by
  cases ty <;> decide

/-- Splitting a `countP` record over one more resource. -/
theorem countP_type_cons (r : AwsResource) (rest : List AwsResource)
    (t : ResourceType) :
    (r :: rest).countP (fun x => x.type = t) =
      rest.countP (fun x => x.type = t) + (if r.type = t then 1 else 0) := by
  by_cases h : r.type = t
  · rw [List.countP_cons_of_pos _ _ (by simp [h]), if_pos h]
  · rw [List.countP_cons_of_neg _ _ (by simp [h]), if_neg h]
    omega

/-- The per-type counts over the full enum sum to the list length. -/
theorem sum_countP_types (resources : List AwsResource) :
    ((allResourceTypes.map
        (fun t => resources.countP (fun r => r.type = t))).sum) =
      resources.length := by
  induction resources with
  | nil => decide
  | cons r rest ih =>
    have : (allResourceTypes.map
        (fun t => (r :: rest).countP (fun x => x.type = t))) =
      allResourceTypes.map (fun t =>
        rest.countP (fun x => x.type = t) + (if r.type = t then 1 else 0)) := by
      exact List.map_congr_left (fun t _ => countP_type_cons r rest t)
    rw [this, sum_map_add, ih, sum_indicator_resourceType, List.length_cons]

/-- Each layer indicator sums to 1 over keys 1–5 provided the layer is
one of them. -/
theorem sum_indicator_layer (l : Nat)
    (h : l ∈ InfrastructureLayer.numericValues) :
    ((InfrastructureLayer.numericValues.map
        (fun k => if l = k then 1 else 0)).sum) = 1 := by
  simp only [InfrastructureLayer.numericValues, List.mem_cons,
    List.not_mem_nil, or_false] at h
  rcases h with rfl | rfl | rfl | rfl | rfl <;> decide

/-- Splitting a layer-count record over one more node. -/
theorem countP_layer_cons (n : GraphNode) (rest : List GraphNode) (k : Nat) :
    (n :: rest).countP (fun x => x.layer = k) =
      rest.countP (fun x => x.layer = k) + (if n.layer = k then 1 else 0) := by
  by_cases h : n.layer = k
  · rw [List.countP_cons_of_pos _ _ (by simp [h]), if_pos h]
  · rw [List.countP_cons_of_neg _ _ (by simp [h]), if_neg h]
    omega

/-- The per-layer counts over keys 1–5 sum to the node count when every
node's layer is one of 1–5. -/
theorem sum_countP_layers (nodes : List GraphNode)
    (h : ∀ n ∈ nodes, n.layer ∈ InfrastructureLayer.numericValues) :
    ((InfrastructureLayer.numericValues.map
        (fun k => nodes.countP (fun n => n.layer = k))).sum) = nodes.length := by
  induction nodes with
  | nil => decide
  | cons n rest ih =>
    have hmap : (InfrastructureLayer.numericValues.map
        (fun k => (n :: rest).countP (fun x => x.layer = k))) =
      InfrastructureLayer.numericValues.map (fun k =>
        rest.countP (fun x => x.layer = k) + (if n.layer = k then 1 else 0)) :=
      List.map_congr_left (fun k _ => countP_layer_cons n rest k)
    rw [hmap, sum_map_add, ih (fun m hm => h m (List.mem_cons_of_mem n hm)),
      sum_indicator_layer n.layer (h n (List.mem_cons_self n rest)),
      List.length_cons]

/-- Every node built by `createNodes` has a layer among 1–5. -/
theorem createNodes_layer_mem (resources : List AwsResource) (n : GraphNode)
    (hn : n ∈ GraphBuilder.createNodes resources) :
    n.layer ∈ InfrastructureLayer.numericValues := by
  simp only [GraphBuilder.createNodes, List.mem_map] at hn
  obtain ⟨r, _, rfl⟩ := hn
  show GraphBuilder.determineLayer r.type ∈ InfrastructureLayer.numericValues
  cases r.type <;> decide

/-- For `createNodes` output the out-of-range key extension of
`calculateLayerCounts` is empty: the record's keys are exactly 1–5. -/
theorem calculateLayerCounts_createNodes (resources : List AwsResource) :
    GraphBuilder.calculateLayerCounts (GraphBuilder.createNodes resources) =
      InfrastructureLayer.numericValues.map (fun k =>
        (k, (GraphBuilder.createNodes resources).countP (fun n => n.layer = k))) := by
  have hfilter : ((GraphBuilder.createNodes resources).map
      (fun n => n.layer)).filter
        (fun l => !InfrastructureLayer.numericValues.contains l) = [] := by
    rw [List.filter_eq_nil_iff]
    intro l hl
    simp only [List.mem_map] at hl
    obtain ⟨n, hn, rfl⟩ := hl
    have := createNodes_layer_mem resources n hn
    simpa using this
  simp only [GraphBuilder.calculateLayerCounts, hfilter,
    GraphBuilder.insertionDedupNat, List.foldl_nil, List.append_nil]

/-- C8: every resource type has a `resourceCounts` entry (zero when the
type is absent), the `resourceCounts` values sum to `totalResources`,
and the `layerCounts` record has exactly the keys 1–5, whose values sum
to the number of nodes. -/
theorem count_consistency (resources : List AwsResource) (region now : String) :
    (∀ t : ResourceType,
       (GraphBuilder.buildGraph resources region now).metadata.resourceCounts.lookup t =
         some (resources.countP (fun r => r.type = t))) ∧
    (∀ t : ResourceType, (∀ r ∈ resources, r.type ≠ t) →
       (GraphBuilder.buildGraph resources region now).metadata.resourceCounts.lookup t =
         some 0) ∧
    (((GraphBuilder.buildGraph resources region now).metadata.resourceCounts.map
        Prod.snd).sum =
      (GraphBuilder.buildGraph resources region now).metadata.totalResources) ∧
    ((GraphBuilder.buildGraph resources region now).metadata.layerCounts.map
        Prod.fst = [1, 2, 3, 4, 5]) ∧
    (((GraphBuilder.buildGraph resources region now).metadata.layerCounts.map
        Prod.snd).sum =
      (GraphBuilder.buildGraph resources region now).nodes.length) := by
  have hlookup : ∀ t : ResourceType,
      (GraphBuilder.buildGraph resources region now).metadata.resourceCounts.lookup t =
        some (resources.countP (fun r => r.type = t)) := by
    intro t
    have ht : t ∈ allResourceTypes := by cases t <;> decide
    exact lookup_map_self allResourceTypes
      (fun t => resources.countP (fun r => r.type = t)) t ht
  refine ⟨hlookup, ?_, ?_, ?_, ?_⟩
  · intro t habsent
    rw [hlookup t]
    have : resources.countP (fun r => r.type = t) = 0 := by
      rw [List.countP_eq_zero]
      intro r hr
      simpa using habsent r hr
    rw [this]
  · show ((GraphBuilder.calculateResourceCounts resources).map Prod.snd).sum =
      resources.length
    rw [GraphBuilder.calculateResourceCounts, List.map_map]
    exact sum_countP_types resources
  · show (GraphBuilder.calculateLayerCounts
        (GraphBuilder.createNodes resources)).map Prod.fst = [1, 2, 3, 4, 5]
    rw [calculateLayerCounts_createNodes, List.map_map]
    rfl
  · show ((GraphBuilder.calculateLayerCounts
        (GraphBuilder.createNodes resources)).map Prod.snd).sum =
      (GraphBuilder.createNodes resources).length
    rw [calculateLayerCounts_createNodes, List.map_map]
    exact sum_countP_layers (GraphBuilder.createNodes resources)
      (createNodes_layer_mem resources)

/-- Witness for C8: the zero-entry clause applied at a concrete scan
with no EC2 instance. -/
theorem count_consistency_witness :
    (GraphBuilder.buildGraph [sampleVpc] "us-east-1" "t0").metadata.resourceCounts.lookup
        ResourceType.EC2_INSTANCE = some 0 :=
  (count_consistency [sampleVpc] "us-east-1" "t0").2.1 ResourceType.EC2_INSTANCE
    (by decide)

/-- Unfolding of the trace loop when no eligible link remains. -/
theorem traceFlowPathAux_eq_none (links : List BusinessFlowLink)
    (path visited : List String) (currentNode : String)
    (h : links.find?
      (fun l => l.source == currentNode && !(visited.contains l.target)) = none) :
    GraphBuilder.traceFlowPathAux links path visited currentNode = path := by
  rw [GraphBuilder.traceFlowPathAux.eq_def]
  split
  next => rfl
  next nl heq =>
    rw [h] at heq
    cases heq

/-- Unfolding of the trace loop on its next eligible link. -/
theorem traceFlowPathAux_eq_some (links : List BusinessFlowLink)
    (path visited : List String) (currentNode : String) (nl : BusinessFlowLink)
    (h : links.find?
      (fun l => l.source == currentNode && !(visited.contains l.target)) = some nl) :
    GraphBuilder.traceFlowPathAux links path visited currentNode =
      GraphBuilder.traceFlowPathAux links (path ++ [nl.target])
        (nl.target :: visited) nl.target := by
  rw [GraphBuilder.traceFlowPathAux.eq_def]
  split
  next heq =>
    rw [h] at heq
    cases heq
  next nl' heq =>
    rw [h] at heq
    cases heq
    rfl

/-- Loop invariant of `traceFlowPathAux`: the head is preserved, the path
stays duplicate-free, and the growth is bounded by the number of links
with still-unvisited targets. -/
theorem traceFlowPathAux_spec (links : List BusinessFlowLink)
    (path visited : List String) (currentNode : String) :
    path ≠ [] → path.Nodup → (∀ x ∈ path, x ∈ visited) →
    (GraphBuilder.traceFlowPathAux links path visited currentNode).head? = path.head? ∧
    (GraphBuilder.traceFlowPathAux links path visited currentNode).Nodup ∧
    (GraphBuilder.traceFlowPathAux links path visited currentNode).length ≤
      path.length + GraphBuilder.unvisitedTargets links visited := by
  refine GraphBuilder.traceFlowPathAux.induct links
    (fun path visited currentNode =>
      path ≠ [] → path.Nodup → (∀ x ∈ path, x ∈ visited) →
      (GraphBuilder.traceFlowPathAux links path visited currentNode).head? = path.head? ∧
      (GraphBuilder.traceFlowPathAux links path visited currentNode).Nodup ∧
      (GraphBuilder.traceFlowPathAux links path visited currentNode).length ≤
        path.length + GraphBuilder.unvisitedTargets links visited)
    ?_ ?_ path visited currentNode
  · intro path visited currentNode h hne hnodup hsub
    rw [traceFlowPathAux_eq_none links path visited currentNode h]
    exact ⟨rfl, hnodup, Nat.le_add_right _ _⟩
  · intro path visited currentNode nextLink h ih hne hnodup hsub
    rw [traceFlowPathAux_eq_some links path visited currentNode nextLink h]
    have hpred := List.find?_some h
    simp only [Bool.and_eq_true, Bool.not_eq_true'] at hpred
    have htnew : nextLink.target ∉ visited := by
      intro hmem
      have hc : visited.contains nextLink.target = true := by
        simpa using hmem
      rw [hpred.2] at hc
      cases hc
    have hnotpath : nextLink.target ∉ path := fun hmem => htnew (hsub _ hmem)
    have hne' : path ++ [nextLink.target] ≠ [] := by simp
    have hnodup' : (path ++ [nextLink.target]).Nodup := by
      simp [List.nodup_append, hnodup, hnotpath]
    have hsub' : ∀ x ∈ path ++ [nextLink.target], x ∈ nextLink.target :: visited := by
      intro x hx
      rcases List.mem_append.mp hx with hx | hx
      · exact List.mem_cons_of_mem _ (hsub x hx)
      · simp only [List.mem_singleton] at hx
        subst hx
        exact List.mem_cons_self _ _
    obtain ⟨ihhead, ihnodup, ihlen⟩ := ih hne' hnodup' hsub'
    refine ⟨?_, ihnodup, ?_⟩
    · rw [ihhead]
      cases path with
      | nil => exact absurd rfl hne
      | cons a t => rfl
    · have hdec : GraphBuilder.unvisitedTargets links (nextLink.target :: visited) <
          GraphBuilder.unvisitedTargets links visited := by
        apply GraphBuilder.countP_lt_of_imp_of_gap links
          (fun l => !(visited.contains l.target))
          (fun l => !((nextLink.target :: visited).contains l.target))
          ?_ nextLink (List.mem_of_find?_eq_some h) ?_ ?_
        · intro x hx
          simp only [Bool.not_eq_true', List.contains_cons] at hx ⊢
          exact (Bool.or_eq_false_iff.mp hx).2
        · simpa using hpred.2
        · simp
      have hlen' : (path ++ [nextLink.target]).length = path.length + 1 := by simp
      omega

/-- C9: `traceFlowPath` (a total function here; its loop terminates
because every iteration visits a new link target) returns a path that
starts at the start node, has pairwise distinct elements, and has length
at most one plus the number of links. -/
theorem traceFlowPath_terminates_sound (startNodeId : String)
    (links : List BusinessFlowLink) (nodes : List BusinessFlowNode) :
    (GraphBuilder.traceFlowPath startNodeId links nodes).head? = some startNodeId ∧
    (GraphBuilder.traceFlowPath startNodeId links nodes).Nodup ∧
    (GraphBuilder.traceFlowPath startNodeId links nodes).length ≤ 1 + links.length := by
  obtain ⟨hhead, hnodup, hlen⟩ :=
    traceFlowPathAux_spec links [startNodeId] [startNodeId] startNodeId
      (by simp) (by simp) (by simp)
  refine ⟨hhead, hnodup, ?_⟩
  have hbound : GraphBuilder.unvisitedTargets links [startNodeId] ≤ links.length :=
    List.countP_le_length _
  simp only [List.length_cons, List.length_nil] at hlen
  show (GraphBuilder.traceFlowPathAux links [startNodeId] [startNodeId]
    startNodeId).length ≤ 1 + links.length
  omega

/-- `stripLocation` leaves the resource id unchanged. -/
@[simp] theorem stripLocation_id (r : AwsResource) : (stripLocation r).id = r.id := rfl

/-- `stripLocation` leaves the resource name unchanged. -/
@[simp] theorem stripLocation_name (r : AwsResource) : (stripLocation r).name = r.name := rfl

/-- `stripLocation` leaves the resource type unchanged. -/
@[simp] theorem stripLocation_type (r : AwsResource) : (stripLocation r).type = r.type := rfl

/-- `stripLocation` leaves the tags unchanged. -/
@[simp] theorem stripLocation_tags (r : AwsResource) : (stripLocation r).tags = r.tags := rfl

/-- `stripLocation` leaves the metadata bag unchanged. -/
@[simp] theorem stripLocation_metadata (r : AwsResource) :
    (stripLocation r).metadata = r.metadata := rfl

/-- `stripLocation` leaves `vpcId` unchanged. -/
@[simp] theorem stripLocation_vpcId (r : AwsResource) : (stripLocation r).vpcId = r.vpcId := rfl

/-- `stripLocation` leaves `subnetId` unchanged. -/
@[simp] theorem stripLocation_subnetId (r : AwsResource) :
    (stripLocation r).subnetId = r.subnetId := rfl

/-- `stripLocation` leaves the availability zone unchanged. -/
@[simp] theorem stripLocation_availabilityZone (r : AwsResource) :
    (stripLocation r).availabilityZone = r.availabilityZone := rfl

/-- VPC containments ignore `region`/`arn`. -/
theorem findVpcContainments_strip (rs : List AwsResource) :
    GraphBuilder.findVpcContainments (rs.map stripLocation) =
      GraphBuilder.findVpcContainments rs := by
  simp only [GraphBuilder.findVpcContainments, List.filter_map,
    List.flatMap_map, List.map_map]
  simp [Function.comp_def]

/-- Subnet containments ignore `region`/`arn`. -/
theorem findSubnetContainments_strip (rs : List AwsResource) :
    GraphBuilder.findSubnetContainments (rs.map stripLocation) =
      GraphBuilder.findSubnetContainments rs := by
  simp only [GraphBuilder.findSubnetContainments, List.filter_map,
    List.flatMap_map, List.map_map]
  simp [Function.comp_def]

/-- Security-group associations ignore `region`/`arn`. -/
theorem findSecurityGroupAssociations_strip (rs : List AwsResource) :
    GraphBuilder.findSecurityGroupAssociations (rs.map stripLocation) =
      GraphBuilder.findSecurityGroupAssociations rs := by
  simp only [GraphBuilder.findSecurityGroupAssociations, List.filter_map,
    List.flatMap_map]
  simp [Function.comp_def]

/-- Instance attachments ignore `region`/`arn`. -/
theorem findInstanceAttachments_strip (rs : List AwsResource) :
    GraphBuilder.findInstanceAttachments (rs.map stripLocation) =
      GraphBuilder.findInstanceAttachments rs := by
  simp only [GraphBuilder.findInstanceAttachments, List.filter_map,
    List.flatMap_map, List.filterMap_map]
  simp [Function.comp_def]

/-- Load-balancer/subnet relationships ignore `region`/`arn`. -/
theorem findLoadBalancerRelationships_strip (rs : List AwsResource) :
    GraphBuilder.findLoadBalancerRelationships (rs.map stripLocation) =
      GraphBuilder.findLoadBalancerRelationships rs := by
  simp only [GraphBuilder.findLoadBalancerRelationships, List.filter_map,
    List.flatMap_map, List.filterMap_map]
  simp [Function.comp_def]

/-- Gateway relationships ignore `region`/`arn`. -/
theorem findGatewayRelationships_strip (rs : List AwsResource) :
    GraphBuilder.findGatewayRelationships (rs.map stripLocation) =
      GraphBuilder.findGatewayRelationships rs := by
  simp only [GraphBuilder.findGatewayRelationships, List.filter_map,
    List.filterMap_map]
  simp [Function.comp_def]

/-- Route-table associations ignore `region`/`arn`. -/
theorem findRouteTableAssociations_strip (rs : List AwsResource) :
    GraphBuilder.findRouteTableAssociations (rs.map stripLocation) =
      GraphBuilder.findRouteTableAssociations rs := by
  simp only [GraphBuilder.findRouteTableAssociations, List.filter_map,
    List.filterMap_map]
  simp [Function.comp_def]

/-- Role lookup by name commutes with the erasure. -/
theorem roles_find_strip (rs : List AwsResource) (n : String) :
    ((rs.filter (fun r => r.type = ResourceType.IAM_ROLE)).map stripLocation).find?
        (fun r => r.name == n) =
      Option.map stripLocation
        ((rs.filter (fun r => r.type = ResourceType.IAM_ROLE)).find?
          (fun r => r.name == n)) := by
  rw [List.find?_map]
  rfl

/-- IAM role associations ignore `region`/`arn`: the role is located via
a metadata ARN string and the role resource's name, never its `arn`
field. -/
theorem findIAMRoleAssociations_strip (rs : List AwsResource) :
    GraphBuilder.findIAMRoleAssociations (rs.map stripLocation) =
      GraphBuilder.findIAMRoleAssociations rs := by
  simp only [GraphBuilder.findIAMRoleAssociations, List.filter_map,
    List.filterMap_map, Function.comp_def, stripLocation_type,
    stripLocation_metadata, stripLocation_name, stripLocation_id]
  congr 1
  · apply List.filterMap_congr
    intro inst _
    cases htr : truthyStr inst.metadata.iamInstanceProfile
    · simp [htr]
    · simp only [htr, if_true]
      cases hm : GraphBuilder.matchIamArn "instance-profile".toList
          (inst.metadata.iamInstanceProfile.getD "").toList with
      | none => rfl
      | some nameChars =>
        dsimp only
        rw [roles_find_strip]
        cases hf : (rs.filter (fun r => r.type = ResourceType.IAM_ROLE)).find?
            (fun r => r.name == String.mk nameChars) <;> rfl
  · apply List.filterMap_congr
    intro func _
    cases htr : truthyStr func.metadata.role
    · simp [htr]
    · simp only [htr, if_true]
      cases hm : GraphBuilder.matchIamArn "role".toList
          (func.metadata.role.getD "").toList with
      | none => rfl
      | some nameChars =>
        dsimp only
        rw [roles_find_strip]
        cases hf : (rs.filter (fun r => r.type = ResourceType.IAM_ROLE)).find?
            (fun r => r.name == String.mk nameChars) <;> rfl

/-- EKS cluster lookup by name commutes with the erasure. -/
theorem clusters_find_strip (rs : List AwsResource) (cn : Option String) :
    ((rs.filter (fun r => r.type = ResourceType.EKS_CLUSTER)).map stripLocation).find?
        (fun c => some c.name = cn) =
      Option.map stripLocation
        ((rs.filter (fun r => r.type = ResourceType.EKS_CLUSTER)).find?
          (fun c => some c.name = cn)) := by
  rw [List.find?_map]
  rfl

/-- EKS relationships ignore `region`/`arn`. -/
theorem findEKSRelationships_strip (rs : List AwsResource) :
    GraphBuilder.findEKSRelationships (rs.map stripLocation) =
      GraphBuilder.findEKSRelationships rs := by
  simp only [GraphBuilder.findEKSRelationships, List.filter_map,
    List.filterMap_map, List.flatMap_map, Function.comp_def,
    stripLocation_type, stripLocation_metadata, stripLocation_name,
    stripLocation_id, stripLocation_tags]
  congr 1
  · congr 1
    · apply List.filterMap_congr
      intro ng _
      rw [clusters_find_strip]
      cases hf : (rs.filter (fun r => r.type = ResourceType.EKS_CLUSTER)).find?
          (fun c => some c.name = ng.metadata.clusterName) <;> rfl
    · apply List.filterMap_congr
      intro fp _
      rw [clusters_find_strip]
      cases hf : (rs.filter (fun r => r.type = ResourceType.EKS_CLUSTER)).find?
          (fun c => some c.name = fp.metadata.clusterName) <;> rfl

/-- All nine rule passes together ignore `region`/`arn`. -/
theorem discoverRelationships_strip (rs : List AwsResource) :
    GraphBuilder.discoverRelationships (rs.map stripLocation) =
      GraphBuilder.discoverRelationships rs := by
  unfold GraphBuilder.discoverRelationships
  rw [findVpcContainments_strip, findSubnetContainments_strip,
    findSecurityGroupAssociations_strip, findInstanceAttachments_strip,
    findLoadBalancerRelationships_strip, findIAMRoleAssociations_strip,
    findGatewayRelationships_strip, findRouteTableAssociations_strip,
    findEKSRelationships_strip]

/-- C4: relationship discovery is a deterministic function of the
resources' observable fields (id, name, type, tags, metadata,
vpcId/subnetId, availability zone): lists that agree after erasing the
remaining fields (`region`, `arn`) produce identical relationship lists,
with no dependence on any external input.  Equal lists are the special
case `rs₁ = rs₂`. -/
theorem discoverRelationships_deterministic (rs₁ rs₂ : List AwsResource)
    (h : rs₁.map stripLocation = rs₂.map stripLocation) :
    GraphBuilder.discoverRelationships rs₁ =
      GraphBuilder.discoverRelationships rs₂ := by
  rw [← discoverRelationships_strip rs₁, h, discoverRelationships_strip rs₂]

/-- `sampleVpc` relocated to another region, for the C4 witness. -/
def sampleVpcRelocated : AwsResource :=
  { sampleVpc with region := "eu-west-1", arn := some "arn:aws:ec2:eu-west-1:*:vpc/vpc-1" }

/-- `sampleSubnet` relocated to another region, for the C4 witness. -/
def sampleSubnetRelocated : AwsResource :=
  { sampleSubnet with region := "eu-west-1" }

/-- Witness for C4: two scans differing only in `region`/`arn` yield the
same relationships. -/
theorem discoverRelationships_deterministic_witness :
    [sampleVpc, sampleSubnet].map stripLocation =
      [sampleVpcRelocated, sampleSubnetRelocated].map stripLocation ∧
    GraphBuilder.discoverRelationships [sampleVpc, sampleSubnet] =
      GraphBuilder.discoverRelationships [sampleVpcRelocated, sampleSubnetRelocated] :=
  ⟨by decide,
   discoverRelationships_deterministic [sampleVpc, sampleSubnet]
     [sampleVpcRelocated, sampleSubnetRelocated] (by decide)⟩

/-- C7: graph construction leaves the resource list unchanged (the
state-passing translation returns its store untouched, since the source
only reads resource fields and builds node metadata as a fresh spread
object), so running `buildGraph` and `buildSecurityAwareGraph` on the
same snapshot in either order yields identical results. -/
theorem buildGraph_frame (resources : List AwsResource) (region now : String) :
    (buildGraphSt resources region now).2 = resources ∧
    (buildSecurityAwareGraphSt resources region now).2 = resources ∧
    ((buildGraphSt ((buildSecurityAwareGraphSt resources region now).2)
        region now).1 =
      (buildGraphSt resources region now).1) ∧
    ((buildSecurityAwareGraphSt ((buildGraphSt resources region now).2)
        region now).1 =
      (buildSecurityAwareGraphSt resources region now).1) ∧
    (∀ node ∈ (GraphBuilder.buildGraph resources region now).nodes,
       ∃ r ∈ resources,
         node.metadata = NodeMetadata.spread r.metadata r.region r.arn r.tags
           r.vpcId r.subnetId r.availabilityZone) := by
  refine ⟨rfl, rfl, rfl, rfl, ?_⟩
  intro node hn
  simp only [GraphBuilder.buildGraph, GraphBuilder.createNodes,
    List.mem_map] at hn
  obtain ⟨r, hr, rfl⟩ := hn
  exact ⟨r, hr, rfl⟩

/-- Witness for C7 at a concrete one-resource snapshot. -/
theorem buildGraph_frame_witness :
    (buildGraphSt [sampleVpc] "us-east-1" "t0").2 = [sampleVpc] ∧
    ∃ r ∈ [sampleVpc],
      sampleVpcNode.metadata = NodeMetadata.spread r.metadata r.region r.arn
        r.tags r.vpcId r.subnetId r.availabilityZone :=
  ⟨(buildGraph_frame [sampleVpc] "us-east-1" "t0").1,
   (buildGraph_frame [sampleVpc] "us-east-1" "t0").2.2.2.2 sampleVpcNode
     (by decide)⟩
